import Mathlib

/-!
# Shallow embedding of the cognee-mcp-v2 dispatch and tool-execution core

This file embeds, in Lean 4, the request-dispatch and tool-execution engine of
the `cognee-mcp-v2` repository:

* `src/core/tool_registry.py` — `ToolMetadata`, `BaseTool` (argument validation,
  execution statistics), `ToolRegistry` (registration, lookup, listing, the
  guarded `call_tool` pipeline, the per-tool rate limiter);
* `src/core/error_handler.py` — the error taxonomy (`ErrorHandler`,
  `_convert_standard_exception`);
* `src/core/mcp_server.py` — the JSON-RPC message dispatcher
  (`_handle_message`, `_handle_request` and the individual method handlers);
* `src/schemas/mcp_models.py` — the protocol data models and error codes.

Modelling conventions:

* Python `dict`s keyed by strings are association lists `List (String × α)`;
  assignment to an existing key keeps its position (Python dict semantics),
  a new key is appended at the end.
* Wall-clock instants (`datetime.utcnow()`) and durations (`time.time()`
  deltas, `metadata.timeout`) are rationals (`ℚ`), measured in seconds;
  `timedelta(minutes=1)` is `60`.
* A tool's asynchronous `execute` coroutine is modelled by a function from
  the arguments to an `ExecOutcome`: the value it would return (or the
  exception message it would raise) together with the wall-clock duration it
  would take.  `asyncio.wait_for(…, timeout=t)` raises `TimeoutError`
  exactly when that duration exceeds `t`.
* JSON values are the inductive `Value`; Python `None` is `Value.vNull`.
* Strings produced only for human consumption (e.g. the `str(e)` detail of a
  JSON parse error) are modelled by simple executable stand-ins; no theorem
  below depends on their exact text.
-/

set_option linter.unusedVariables false

namespace CogneeMCP

/-- JSON-like runtime values (the payloads that `json.loads` produces and the
values Python code passes around as tool arguments/results).  `vBool` is kept
separate from `vInt` but the argument validator treats booleans as numbers,
mirroring Python's `isinstance(True, int) = True`. -/
inductive Value where
  | vNull : Value
  | vBool (b : Bool) : Value
  | vInt (n : Int) : Value
  | vFloat (q : ℚ) : Value
  | vStr (s : String) : Value
  | vArr (xs : List Value) : Value
  | vObj (fields : List (String × Value)) : Value

/-- Lookup in a Python-dict-as-association-list (first matching key). -/
def alookup {α : Type} : List (String × α) → String → Option α
  | [], _ => none
  | (k, v) :: rest, key => if k = key then some v else alookup rest key

/-- Python dict assignment `d[k] = v`: overwrite in place if the key exists
(keeping its position), otherwise append at the end. -/
def aset {α : Type} : List (String × α) → String → α → List (String × α)
  | [], key, v => [(key, v)]
  | (k, w) :: rest, key, v =>
      if k = key then (k, v) :: rest else (k, w) :: aset rest key v

/-- Python dict deletion `del d[k]` (first occurrence). -/
def adel {α : Type} : List (String × α) → String → List (String × α)
  | [], _ => []
  | (k, w) :: rest, key => if k = key then rest else (k, w) :: adel rest key

/-- Membership test `k in d`. -/
def amem {α : Type} (l : List (String × α)) (key : String) : Bool :=
  (alookup l key).isSome

/-- A single-quote character (`'`, code point 39), used by the Python source
inside its f-string messages. -/
def sq : String := String.singleton (Char.ofNat 39)

/-! ## Error codes (`src/schemas/mcp_models.py`, class `MCPErrorCodes`) -/

namespace MCPErrorCodes

def PARSE_ERROR : Int := -32700
def INVALID_REQUEST : Int := -32600
def METHOD_NOT_FOUND : Int := -32601
def INVALID_PARAMS : Int := -32602
def INTERNAL_ERROR : Int := -32603
def AUTHENTICATION_ERROR : Int := -32001
def AUTHORIZATION_ERROR : Int := -32002
def RESOURCE_NOT_FOUND : Int := -32003
def RESOURCE_UNAVAILABLE : Int := -32004
def RATE_LIMIT_EXCEEDED : Int := -32005
def TOOL_EXECUTION_ERROR : Int := -32006

end MCPErrorCodes

/-- `MCPError` (`src/schemas/mcp_models.py`): `{code, message}`; the optional
`data` payload carries only diagnostic text and is not modelled. -/
structure MCPErrorObj where
  code : Int
  message : String
deriving DecidableEq, Repr

/-! ## Error taxonomy (`src/core/error_handler.py`) -/

/-- The exceptions that can reach `ErrorHandler.handle_exception`.  Domain
exceptions (`CogneeBaseException` and its subclasses) carry an explicit error
code; the seven built-in exception types named in `error_mapping` are listed
individually; `otherExc` stands for any other exception type, carrying that
type's name (which, Python types being distinct, differs from the seven listed
names). -/
inductive PyExc where
  | valueError (msg : String)
  | typeError (msg : String)
  | keyError (msg : String)
  | fileNotFoundError (msg : String)
  | permissionError (msg : String)
  | connectionError (msg : String)
  | timeoutError (msg : String)
  | otherExc (typeName : String) (msg : String)
  | domain (code : Int) (msg : String)
deriving DecidableEq, Repr

namespace PyExc

/-- `type(exception).__name__` for the embedded exceptions. -/
def typeName : PyExc → String
  | valueError _ => "ValueError"
  | typeError _ => "TypeError"
  | keyError _ => "KeyError"
  | fileNotFoundError _ => "FileNotFoundError"
  | permissionError _ => "PermissionError"
  | connectionError _ => "ConnectionError"
  | timeoutError _ => "TimeoutError"
  | otherExc t _ => t
  | domain _ _ => "CogneeBaseException"

/-- `str(exception)`. -/
def message : PyExc → String
  | valueError m => m
  | typeError m => m
  | keyError m => m
  | fileNotFoundError m => m
  | permissionError m => m
  | connectionError m => m
  | timeoutError m => m
  | otherExc _ m => m
  | domain _ m => m

end PyExc

/-- The `error_mapping` dictionary of
`ErrorHandler._convert_standard_exception`, keyed (as in the source, where keys
are the type objects themselves) by exception type. -/
def errorMapping : List (String × Int) :=
  [("ValueError", MCPErrorCodes.INVALID_PARAMS),
   ("TypeError", MCPErrorCodes.INVALID_PARAMS),
   ("KeyError", MCPErrorCodes.INVALID_PARAMS),
   ("FileNotFoundError", MCPErrorCodes.RESOURCE_NOT_FOUND),
   ("PermissionError", MCPErrorCodes.AUTHORIZATION_ERROR),
   ("ConnectionError", MCPErrorCodes.RESOURCE_UNAVAILABLE),
   ("TimeoutError", MCPErrorCodes.RESOURCE_UNAVAILABLE)]

/-- `ErrorHandler._convert_standard_exception`:
`error_mapping.get(type(exception), INTERNAL_ERROR)` together with
`message=str(exception)`. -/
def convertStandardException (e : PyExc) : MCPErrorObj :=
  { code := (alookup errorMapping e.typeName).getD MCPErrorCodes.INTERNAL_ERROR
  , message := e.message }

/-- `ErrorHandler.handle_exception` (statistics bookkeeping and logging have no
effect on the returned error and are not modelled): a `CogneeBaseException`
yields its own code via `to_mcp_error`, any other exception goes through
`_convert_standard_exception`. -/
def handleException (e : PyExc) : MCPErrorObj :=
  match e with
  | .domain code msg => { code := code, message := msg }
  | _ => convertStandardException e

/-! ## Tool registry data model (`src/core/tool_registry.py`) -/

/-- `ToolCategory` enumeration. -/
inductive ToolCategory where
  | basic | graph | dataset | temporal | ontology | memory | selfImproving | diagnostic
deriving DecidableEq, Repr

/-- `ToolMetadata`.  `rate_limit: Optional[int]` keeps Python's `int`, so the
registry's truthiness test `if tool.metadata.rate_limit:` distinguishes
`None`/`0` (falsy) from every other value. -/
structure ToolMetadata where
  name : String
  category : ToolCategory
  description : String
  version : String := "1.0.0"
  requires_auth : Bool := true
  rate_limit : Option Int := none
  timeout : ℚ := 30
  enabled : Bool := true
deriving DecidableEq, Repr

/-- Python truthiness of `metadata.rate_limit` (`None` and `0` are falsy). -/
def truthyLimit : Option Int → Bool
  | none => false
  | some n => n ≠ 0

/-- `BaseTool._execution_stats`. -/
structure ExecutionStats where
  total_calls : Nat := 0
  successful_calls : Nat := 0
  failed_calls : Nat := 0
  total_execution_time : ℚ := 0
  average_execution_time : ℚ := 0
deriving DecidableEq, Repr

/-- `BaseTool.update_stats(execution_time, success)`. -/
def updateStats (s : ExecutionStats) (execution_time : ℚ) (success : Bool) :
    ExecutionStats :=
  let s := { s with
    total_calls := s.total_calls + 1
    total_execution_time := s.total_execution_time + execution_time }
  let s := if success
    then { s with successful_calls := s.successful_calls + 1 }
    else { s with failed_calls := s.failed_calls + 1 }
  if s.total_calls > 0 then
    { s with average_execution_time := s.total_execution_time / s.total_calls }
  else s

/-- `ToolInputSchema`: `properties` maps a field name to the `'type'` entry of
its schema dict (`field_schema.get('type')`, absent when the schema dict has no
`type` key); `required` lists the required field names. -/
structure ToolInputSchema where
  properties : List (String × Option String) := []
  required : List String := []
deriving DecidableEq, Repr

/-- The `isinstance` checks of `BaseTool.validate_arguments`, one per declared
type string.  Note `isinstance(True, (int, float))` holds in Python, so a
boolean passes the `number` check; any declared type outside the five checked
strings is not checked at all. -/
def typeMatches (expected : String) (v : Value) : Bool :=
  if expected = "string" then
    match v with | .vStr _ => true | _ => false
  else if expected = "number" then
    match v with | .vInt _ => true | .vFloat _ => true | .vBool _ => true | _ => false
  else if expected = "boolean" then
    match v with | .vBool _ => true | _ => false
  else if expected = "array" then
    match v with | .vArr _ => true | _ => false
  else if expected = "object" then
    match v with | .vObj _ => true | _ => false
  else true

/-- The per-type failure message of `validate_arguments`. -/
def typeMismatchDetail (expected : String) : String :=
  if expected = "string" then "期望字符串类型"
  else if expected = "number" then "期望数字类型"
  else if expected = "boolean" then "期望布尔类型"
  else if expected = "array" then "期望数组类型"
  else "期望对象类型"

/-- `CogneeBaseException.message` of a `ValidationError(field, value, detail)`:
`f"字段 '{field}' 验证失败: {detail}"`. -/
def validationErrMessage (field detail : String) : String :=
  "字段 " ++ sq ++ field ++ sq ++ " 验证失败: " ++ detail

/-- First missing required field, scanning `schema.required` in order
(the loop `for required_field in schema.required`). -/
def firstMissingRequired (required : List String) (args : List (String × Value)) :
    Option String :=
  required.find? (fun f => !amem args f)

/-- First type mismatch, scanning `schema.properties.items()` in order
(the loop `for field_name, field_schema in schema.properties.items()`);
only fields present in `arguments` are checked. -/
def firstTypeMismatch (props : List (String × Option String))
    (args : List (String × Value)) : Option (String × String) :=
  match props with
  | [] => none
  | (f, ty) :: rest =>
      match alookup args f, ty with
      | some v, some t =>
          if typeMatches t v then firstTypeMismatch rest args else some (f, t)
      | _, _ => firstTypeMismatch rest args

/-- `BaseTool.validate_arguments`: raises (here: returns `.error` with the
exception's `message`) on the first missing required field, then on the first
type mismatch. -/
def validateArguments (schema : ToolInputSchema) (args : List (String × Value)) :
    Except String Unit :=
  match firstMissingRequired schema.required args with
  | some f => .error (validationErrMessage f ("缺少必需参数: " ++ f))
  | none =>
      match firstTypeMismatch schema.properties args with
      | some (f, t) => .error (validationErrMessage f (typeMismatchDetail t))
      | none => .ok ()

/-- The behaviour of one invocation of a tool's `execute` coroutine: either it
returns a value or raises an exception with the given `str(e)`, in both cases
after running for `duration` seconds of wall-clock time. -/
inductive ExecOutcome where
  | ok (v : Value) (duration : ℚ)
  | raises (msg : String) (duration : ℚ)

/-- A registered tool (`BaseTool` instance): metadata, the schema returned by
`get_input_schema`, the behaviour of `execute`, and the mutable
`_execution_stats`. -/
structure Tool where
  metadata : ToolMetadata
  schema : ToolInputSchema
  run : List (String × Value) → ExecOutcome
  stats : ExecutionStats := {}

/-- One `_rate_limiters` entry: `{"calls", "reset_time", "limit"}`. -/
structure RateLimiter where
  calls : Nat
  reset_time : Option ℚ
  limit : Int
deriving DecidableEq, Repr

/-- `ToolRegistry` state: `_tools`, `_categories`, `_rate_limiters`. -/
structure Registry where
  tools : List (String × Tool) := []
  categories : List (ToolCategory × List String) := []
  rate_limiters : List (String × RateLimiter) := []

/-- A fresh `ToolRegistry()` (every category starts with an empty name list). -/
def emptyRegistry : Registry :=
  { tools := []
  , categories :=
      [(.basic, []), (.graph, []), (.dataset, []), (.temporal, []),
       (.ontology, []), (.memory, []), (.selfImproving, []), (.diagnostic, [])]
  , rate_limiters := [] }

/-- Append `name` to the category's list unless already present
(`if tool_name not in self._categories[category]`). -/
def addToCategory (cats : List (ToolCategory × List String))
    (cat : ToolCategory) (name : String) : List (ToolCategory × List String) :=
  cats.map (fun p =>
    if p.1 = cat then
      (p.1, if name ∈ p.2 then p.2 else p.2 ++ [name])
    else p)

/-- `ToolRegistry.register_tool`: overwrite-by-name (the conflict warning is a
log line only); add the name to the category list; when `metadata.rate_limit`
is truthy, (re)create the rate-limiter entry with
`{"calls": 0, "reset_time": None, "limit": metadata.rate_limit}`. -/
def registerTool (reg : Registry) (tool : Tool) : Registry :=
  let name := tool.metadata.name
  let reg := { reg with tools := aset reg.tools name tool }
  let reg := { reg with categories := addToCategory reg.categories tool.metadata.category name }
  if truthyLimit tool.metadata.rate_limit then
    let fresh : RateLimiter :=
      { calls := 0, reset_time := none, limit := tool.metadata.rate_limit.getD 0 }
    { reg with rate_limiters := aset reg.rate_limiters name fresh }
  else reg

/-- `ToolRegistry.get_tool`. -/
def getTool (reg : Registry) (name : String) : Option Tool :=
  alookup reg.tools name

/-- `ToolDefinition` (`src/schemas/mcp_models.py`). -/
structure ToolDefinition where
  name : String
  description : String
  inputSchema : ToolInputSchema
deriving DecidableEq, Repr

/-- `BaseTool.to_tool_definition`. -/
def Tool.toToolDefinition (t : Tool) : ToolDefinition :=
  { name := t.metadata.name
  , description := t.metadata.description
  , inputSchema := t.schema }

/-- `ToolRegistry.list_tools(category, enabled_only)`: iterate `_tools` in
insertion order, filtering on the enabled flag and the category. -/
def listTools (reg : Registry) (category : Option ToolCategory := none)
    (enabled_only : Bool := true) : List ToolDefinition :=
  (reg.tools.filter (fun p =>
      (!enabled_only || p.2.metadata.enabled) &&
      (match category with
       | some c => p.2.metadata.category = c
       | none => true))).map
    (fun p => p.2.toToolDefinition)

/-! ## Rate limiting and the guarded `call_tool` pipeline -/

/-- The window-reset step of `ToolRegistry._check_rate_limit`: when
`reset_time` is unset or `now >= reset_time`, zero the count and start a fresh
60-second window (`now + timedelta(minutes=1)`). -/
def resetIfDue (lim : RateLimiter) (now : ℚ) : RateLimiter :=
  match lim.reset_time with
  | none => { lim with calls := 0, reset_time := some (now + 60) }
  | some r =>
      if now ≥ r then { lim with calls := 0, reset_time := some (now + 60) }
      else lim

/-- `ToolRegistry._check_rate_limit(tool_name)` at wall-clock instant `now`:
a tool without a limiter entry always passes; otherwise reset the window if
due, reject (without incrementing) when `calls >= limit`, else increment
`calls` and pass.  The limiter entry is mutated in place, so the (possibly
reset) state is stored even on rejection. -/
def checkRateLimit (limiters : List (String × RateLimiter)) (name : String)
    (now : ℚ) : Bool × List (String × RateLimiter) :=
  match alookup limiters name with
  | none => (true, limiters)
  | some lim0 =>
      let lim := resetIfDue lim0 now
      if (lim.calls : Int) ≥ lim.limit then
        (false, aset limiters name lim)
      else
        (true, aset limiters name { lim with calls := lim.calls + 1 })

/-- `tool.update_stats` applied to the named tool inside `_tools` (the stats
dict is owned by the `BaseTool` instance the registry holds). -/
def updateToolStats (reg : Registry) (name : String) (execution_time : ℚ)
    (success : Bool) : Registry :=
  match alookup reg.tools name with
  | none => reg
  | some t =>
      let t2 : Tool := { t with stats := updateStats t.stats execution_time success }
      { reg with tools := aset reg.tools name t2 }

/-- `f"工具 '{tool_name}' 不存在"` — the unknown-tool outcome message. -/
def unknownToolMsg (name : String) : String :=
  "工具 " ++ sq ++ name ++ sq ++ " 不存在"

/-- `f"工具 '{tool_name}' 已禁用"` — the disabled-tool outcome message. -/
def disabledToolMsg (name : String) : String :=
  "工具 " ++ sq ++ name ++ sq ++ " 已禁用"

/-- `f"工具 '{tool_name}' 达到速率限制"` — the rate-limited outcome message. -/
def rateLimitedMsg (name : String) : String :=
  "工具 " ++ sq ++ name ++ sq ++ " 达到速率限制"

/-- `f"参数验证失败: {e.message}"` — the argument-validation outcome message. -/
def validationFailedMsg (emsg : String) : String :=
  "参数验证失败: " ++ emsg

/-- `f"工具 '{tool_name}' 执行超时"` — the timeout outcome message. -/
def timeoutMsg (name : String) : String :=
  "工具 " ++ sq ++ name ++ sq ++ " 执行超时"

/-- `f"工具执行失败: {str(e)}"` — the execution-exception outcome message. -/
def execFailedMsg (emsg : String) : String :=
  "工具执行失败: " ++ emsg

/-- One `{"type": "text", "text": …}` content item. -/
structure ContentItem where
  type : String
  text : String
deriving DecidableEq, Repr

/-- `ToolCallResult` (`src/schemas/mcp_models.py`). -/
structure ToolCallResult where
  content : List ContentItem
  isError : Bool := false
deriving DecidableEq, Repr

/-- An `isError=true` outcome with a single text item. -/
def errorOutcome (msg : String) : ToolCallResult :=
  { content := [{ type := "text", text := msg }], isError := true }

/-- Python's `str()` on the embedded values, as used by the result-formatting
step of `call_tool` (`str(result)`).  Container rendering approximates
Python's (element quoting inside containers is not reproduced); no theorem
depends on the rendered text. -/
def pyStr : Value → String
  | .vNull => "None"
  | .vBool b => if b then "True" else "False"
  | .vInt n => toString n
  | .vFloat q => toString q
  | .vStr s => s
  | .vArr xs => "[" ++ String.intercalate ", " (xs.attach.map (fun x => pyStr x.1)) ++ "]"
  | .vObj fs =>
      "\x7b" ++
        String.intercalate ", "
          (fs.attach.map (fun p => p.1.1 ++ ": " ++ pyStr p.1.2)) ++
      "\x7d"
decreasing_by
  · have h := List.sizeOf_lt_of_mem x.2
    simp only [Value.vArr.sizeOf_spec]
    omega
  · have h1 : sizeOf p.1 < sizeOf fs := List.sizeOf_lt_of_mem p.2
    have h2 : sizeOf p.1.2 < sizeOf p.1 := by
      obtain ⟨⟨a, b⟩, hp⟩ := p
      simp
    simp only [Value.vObj.sizeOf_spec]
    omega

/-- The success-formatting step of `call_tool`: a `dict` result and any other
non-string value go through `str(result)`, a string result is used as-is; in
all three branches the content is a single `{"type": "text", "text": …}`
item. -/
def formatSuccess (v : Value) : ToolCallResult :=
  { content := [{ type := "text", text := pyStr v }], isError := false }

/-- `ToolRegistry.call_tool(tool_name, arguments, context)` at wall-clock
instant `now` — the guarded pipeline of `src/core/tool_registry.py`, lines
240–336: existence lookup, enablement check, rate-limit check, argument
validation, then `asyncio.wait_for(tool.execute(...), timeout=metadata.timeout)`
(timing out exactly when the execution's duration exceeds the metadata
timeout; the wall time measured when the `TimeoutError` is caught is the
timeout itself).  Every branch returns a `ToolCallResult`; none raises a
protocol-level error.  Returns the outcome together with the updated registry
state. -/
def callTool (reg : Registry) (now : ℚ) (name : String)
    (args : List (String × Value)) : ToolCallResult × Registry :=
  match alookup reg.tools name with
  | none => (errorOutcome (unknownToolMsg name), reg)
  | some tool =>
      if !tool.metadata.enabled then
        (errorOutcome (disabledToolMsg name), reg)
      else
        let checked := checkRateLimit reg.rate_limiters name now
        let reg := { reg with rate_limiters := checked.2 }
        if !checked.1 then
          (errorOutcome (rateLimitedMsg name), reg)
        else
          match validateArguments tool.schema args with
          | .error emsg => (errorOutcome (validationFailedMsg emsg), reg)
          | .ok _ =>
              match tool.run args with
              | .ok v duration =>
                  if duration > tool.metadata.timeout then
                    (errorOutcome (timeoutMsg name),
                     updateToolStats reg name tool.metadata.timeout false)
                  else
                    (formatSuccess v, updateToolStats reg name duration true)
              | .raises emsg duration =>
                  if duration > tool.metadata.timeout then
                    (errorOutcome (timeoutMsg name),
                     updateToolStats reg name tool.metadata.timeout false)
                  else
                    (errorOutcome (execFailedMsg emsg),
                     updateToolStats reg name duration false)

/-! ## MCP server and dispatcher (`src/core/mcp_server.py`) -/

/-- The MCP-relevant settings (`src/config/settings.py`, `MCPServerSettings`
defaults). -/
structure Settings where
  server_name : String := "cognee-mcp-v2"
  server_version : String := "2.0.0"
  protocol_version : String := "2024-11-05"
deriving DecidableEq, Repr

/-- A validated request/response id.  Both `MCPRequest.id` and
`MCPResponse.id` are declared `id: Union[str, int]` as *required* pydantic
fields (`src/schemas/mcp_models.py`, lines 23 and 29): a string or an integer
validates, while `None` is rejected — constructing `MCPRequest(id=None, …)` or
`MCPResponse(id=None, …)` raises a `ValidationError` (in both pydantic
majors). -/
inductive RequestId where
  | str (s : String)
  | int (n : Int)
deriving DecidableEq, Repr

/-- Validation of the raw parsed `"id"` member against `Union[str, int]`:
strings and integers pass; `null`, arrays and objects are rejected (pydantic
raises in both majors).  Whether a JSON float or boolean coerces is
pydantic-version-dependent; the model rejects them, and no theorem below
quantifies over those shapes. -/
def parseRequestId : Value → Option RequestId
  | .vStr s => some (.str s)
  | .vInt n => some (.int n)
  | _ => none

/-- A constructed `MCPRequest`: a validated id, a string `method`, and
`params` already flattened to `request.params or {}`. -/
structure MCPRequest where
  id : RequestId
  method : String
  params : List (String × Value)

/-- An `MCPResponse`: a validated id plus either a `result` or an `error`
member.  Because `id: Union[str, int]` is required, a response with a `null`
id is unconstructible — which is what sinks the parse-error path (see
`createErrorResponse`). -/
structure MCPResponse where
  id : RequestId
  result : Option Value := none
  error : Option MCPErrorObj := none

/-- The error code of a response, `none` for a success response. -/
def MCPResponse.errCode (r : MCPResponse) : Option Int :=
  r.error.map (fun e => e.code)

/-- Server state (`MCPServer.__init__`): the `_initialized`/`_running` flags,
request and error counters, the owned registry, and the auth collaborator
abstracted to two booleans — whether `auth_manager.is_authenticated()` holds
and whether `auth_manager.authenticate()` would succeed. -/
structure ServerState where
  settings : Settings := {}
  initialized : Bool := false
  running : Bool := true
  authenticated : Bool := false
  authWorks : Bool := true
  request_count : Nat := 0
  error_count : Nat := 0
  client_capabilities : Option Value := none
  registry : Registry := emptyRegistry

/-- Stand-in for the textual detail of `str(json.JSONDecodeError)`; only its
existence matters to the theorems below. -/
def jsonErrDetail (raw : String) : String := raw

/-- Stand-in for the textual rendering of a pydantic `ValidationError`. -/
def pydanticErrText : String := "validation error for request model"

/-- The server capabilities advertised by `_handle_initialize`. -/
def serverCapabilitiesValue : Value :=
  .vObj
    [("tools", .vObj [("supports_listing", .vBool true), ("supports_calling", .vBool true)]),
     ("resources", .vObj [("supports_listing", .vBool true), ("supports_reading", .vBool true)]),
     ("prompts", .vObj [("supports_listing", .vBool true), ("supports_getting", .vBool true)])]

/-- `MCPServerInfo` as built by `_handle_initialize`. -/
def serverInfoValue (s : Settings) : Value :=
  .vObj
    [("name", .vStr s.server_name),
     ("version", .vStr s.server_version),
     ("description", .vStr "Cognee知识图谱MCP服务器 - 企业级模块化重构版本")]

/-- `MCPServer._handle_initialize`: validate
`{protocol_version, capabilities, client_info}` (a pydantic `ValidationError`
when a member is missing or ill-typed), store the client capabilities, flip
`_initialized`, and return the `MCPInitializeResponse` dict. -/
def handleInitialize (st : ServerState) (params : List (String × Value)) :
    Except PyExc (Value × ServerState) :=
  match alookup params "protocol_version", alookup params "capabilities",
        alookup params "client_info" with
  | some (.vStr _), some (.vObj caps), some (.vObj _) =>
      let st := { st with client_capabilities := some (.vObj caps), initialized := true }
      .ok (.vObj
        [("protocol_version", .vStr st.settings.protocol_version),
         ("capabilities", serverCapabilitiesValue),
         ("server_info", serverInfoValue st.settings)], st)
  | _, _, _ => .error (.otherExc "ValidationError" pydanticErrText)

/-- A `ToolInputSchema` rendered back to its schema dict (only the retained
`type` entry of each property is rendered). -/
def schemaValue (s : ToolInputSchema) : Value :=
  .vObj
    [("type", .vStr "object"),
     ("properties", .vObj (s.properties.map (fun p =>
        (p.1, Value.vObj (match p.2 with
          | some t => [("type", Value.vStr t)]
          | none => []))))),
     ("required", .vArr (s.required.map Value.vStr)),
     ("additionalProperties", .vBool false)]

/-- A `ToolDefinition` rendered to its response dict. -/
def toolDefinitionValue (d : ToolDefinition) : Value :=
  .vObj
    [("name", .vStr d.name),
     ("description", .vStr d.description),
     ("inputSchema", schemaValue d.inputSchema)]

/-- The message raised by `_handle_tools_list`/`_handle_tools_call` when the
server is not initialized. -/
def notInitializedMsg : String := "服务器尚未初始化"

/-- `MCPServer._handle_tools_list`: requires `_initialized`, else raises
`CogneeBaseException(…, INTERNAL_ERROR)`; returns the enabled tool
definitions. -/
def handleToolsList (st : ServerState) (params : List (String × Value)) :
    Except PyExc (Value × ServerState) :=
  if !st.initialized then
    .error (.domain MCPErrorCodes.INTERNAL_ERROR notInitializedMsg)
  else
    .ok (.vObj [("tools", .vArr ((listTools st.registry none true).map toolDefinitionValue))], st)

/-- A `ToolCallResult` rendered to its response dict (`result.dict()`). -/
def toolCallResultValue (r : ToolCallResult) : Value :=
  .vObj
    [("content", .vArr (r.content.map (fun c =>
        Value.vObj [("type", Value.vStr c.type), ("text", Value.vStr c.text)]))),
     ("isError", .vBool r.isError)]

/-- `MCPServer._handle_tools_call` at wall-clock instant `now`: requires
`_initialized` (else `CogneeBaseException(INTERNAL_ERROR)`); parses
`ToolCallRequest {name, arguments}` (pydantic `ValidationError` on a missing
or ill-typed member); runs the auth gate when the target tool exists and
requires auth (`CogneeBaseException(AUTHENTICATION_ERROR)` when
`authenticate()` fails); then delegates to `call_tool` and returns its
outcome dict. -/
def handleToolsCall (st : ServerState) (now : ℚ) (params : List (String × Value)) :
    Except PyExc (Value × ServerState) :=
  if !st.initialized then
    .error (.domain MCPErrorCodes.INTERNAL_ERROR notInitializedMsg)
  else
    match alookup params "name" with
    | some (.vStr name) =>
        match (alookup params "arguments").getD (.vObj []) with
        | .vObj args =>
            let tool := getTool st.registry name
            let needsAuth :=
              match tool with
              | some t => t.metadata.requires_auth && !st.authenticated
              | none => false
            if needsAuth && !st.authWorks then
              .error (.domain MCPErrorCodes.AUTHENTICATION_ERROR
                ("认证失败: " ++ "authentication failed"))
            else
              let st := if needsAuth then { st with authenticated := true } else st
              let called := callTool st.registry now name args
              .ok (toolCallResultValue called.1, { st with registry := called.2 })
        | _ => .error (.otherExc "ValidationError" pydanticErrText)
    | _ => .error (.otherExc "ValidationError" pydanticErrText)

/-- The static resource list of `_handle_resources_list`. -/
def resourcesListValue : Value :=
  .vObj [("resources", .vArr
    [.vObj [("uri", .vStr "config://settings"), ("name", .vStr "服务器配置"),
            ("description", .vStr "当前服务器配置信息"), ("mimeType", .vStr "application/json")],
     .vObj [("uri", .vStr "stats://server"), ("name", .vStr "服务器统计"),
            ("description", .vStr "服务器运行统计信息"), ("mimeType", .vStr "application/json")],
     .vObj [("uri", .vStr "stats://tools"), ("name", .vStr "工具统计"),
            ("description", .vStr "工具执行统计信息"), ("mimeType", .vStr "application/json")]])]

/-- `MCPServer._handle_resources_list`: static; no `initialized` check. -/
def handleResourcesList (st : ServerState) (params : List (String × Value)) :
    Except PyExc (Value × ServerState) :=
  .ok (resourcesListValue, st)

/-- `MCPServer._get_safe_config`, serialized (stand-in for `json.dumps`). -/
def safeConfigText (st : ServerState) : String :=
  pyStr (.vObj
    [("server", .vObj
       [("name", .vStr st.settings.server_name),
        ("version", .vStr st.settings.server_version),
        ("protocol_version", .vStr st.settings.protocol_version)])])

/-- An `ExecutionStats` record rendered as a dict. -/
def statsValue (s : ExecutionStats) : Value :=
  .vObj
    [("total_calls", .vInt s.total_calls),
     ("successful_calls", .vInt s.successful_calls),
     ("failed_calls", .vInt s.failed_calls),
     ("total_execution_time", .vFloat s.total_execution_time),
     ("average_execution_time", .vFloat s.average_execution_time)]

/-- `MCPServer._get_server_stats`, serialized (note it reports the
`initialized` flag inside the text — the handler reads the flag but never
gates on it). -/
def serverStatsText (st : ServerState) : String :=
  pyStr (.vObj
    [("status", .vObj
       [("initialized", .vBool st.initialized), ("running", .vBool st.running)]),
     ("requests", .vObj
       [("total_requests", .vInt st.request_count),
        ("error_count", .vInt st.error_count)])])

/-- `ToolRegistry.get_tool_stats()` over all tools, serialized. -/
def toolStatsText (st : ServerState) : String :=
  pyStr (.vObj (st.registry.tools.map (fun p => (p.1, statsValue p.2.stats))))

/-- `params.get(key, "")` followed by use in an f-string: a string value is
used as-is, any other value renders via `str`. -/
def getStrParam (params : List (String × Value)) (key : String) : String :=
  match alookup params key with
  | some (.vStr s) => s
  | some v => pyStr v
  | none => ""

/-- One `contents` entry of a `resources/read` result. -/
def resourceContentsValue (uri text : String) : Value :=
  .vObj [("contents", .vArr
    [.vObj [("uri", .vStr uri), ("mimeType", .vStr "application/json"),
            ("text", .vStr text)]])]

/-- `MCPServer._handle_resources_read`: three known URIs, otherwise
`CogneeBaseException(RESOURCE_NOT_FOUND)`; no `initialized` check. -/
def handleResourcesRead (st : ServerState) (params : List (String × Value)) :
    Except PyExc (Value × ServerState) :=
  let uri := getStrParam params "uri"
  if uri = "config://settings" then
    .ok (resourceContentsValue uri (safeConfigText st), st)
  else if uri = "stats://server" then
    .ok (resourceContentsValue uri (serverStatsText st), st)
  else if uri = "stats://tools" then
    .ok (resourceContentsValue uri (toolStatsText st), st)
  else
    .error (.domain MCPErrorCodes.RESOURCE_NOT_FOUND ("未知资源: " ++ uri))

/-- The static prompt list of `_handle_prompts_list`. -/
def promptsListValue : Value :=
  .vObj [("prompts", .vArr
    [.vObj [("name", .vStr "analyze_data"), ("description", .vStr "分析数据集并生成洞察"),
            ("arguments", .vArr [.vObj [("name", .vStr "dataset_id"),
              ("description", .vStr "数据集ID"), ("required", .vBool true)]])],
     .vObj [("name", .vStr "create_summary"), ("description", .vStr "创建知识图谱摘要"),
            ("arguments", .vArr [.vObj [("name", .vStr "dataset_id"),
              ("description", .vStr "数据集ID"), ("required", .vBool true)],
              .vObj [("name", .vStr "focus_area"),
              ("description", .vStr "聚焦领域"), ("required", .vBool false)]])]])]

/-- `MCPServer._handle_prompts_list`: static; no `initialized` check. -/
def handlePromptsList (st : ServerState) (params : List (String × Value)) :
    Except PyExc (Value × ServerState) :=
  .ok (promptsListValue, st)

/-- A single prompt message `{role, content:{type:"text", text}}`. -/
def promptMessageValue (role text : String) : Value :=
  .vObj [("role", .vStr role),
         ("content", .vObj [("type", .vStr "text"), ("text", .vStr text)])]

/-- `MCPServer._handle_prompts_get`: dispatch on `params.get("name", "")`
first — two known prompts, any other name raises
`CogneeBaseException(RESOURCE_NOT_FOUND)`; no `initialized` check.
`arguments = params.get("arguments", {})` is bound up front without error, and
only the two known-prompt branches call `arguments.get`, which raises
(`AttributeError`, a generic exception) when the member is not a dict. -/
def handlePromptsGet (st : ServerState) (params : List (String × Value)) :
    Except PyExc (Value × ServerState) :=
  let name := getStrParam params "name"
  let argumentsVal := (alookup params "arguments").getD (.vObj [])
  if name = "analyze_data" then
    match argumentsVal with
    | .vObj args =>
        let dataset_id := getStrParam args "dataset_id"
        .ok (.vObj
          [("description", .vStr ("分析数据集 " ++ dataset_id)),
           ("messages", .vArr
             [promptMessageValue "system"
                ("你是一个数据分析专家，请分析数据集 " ++ dataset_id ++ " 并提供深入洞察。"),
              promptMessageValue "user"
                ("请分析数据集 " ++ dataset_id ++ " 的内容，包括主要实体、关系模式和潜在价值。")])], st)
    | _ => .error (.otherExc "AttributeError" "no attribute get")
  else if name = "create_summary" then
    match argumentsVal with
    | .vObj args =>
        let dataset_id := getStrParam args "dataset_id"
        let focus_area :=
          match alookup args "focus_area" with
          | some (.vStr s) => s
          | some v => pyStr v
          | none => "全面"
        .ok (.vObj
          [("description", .vStr ("创建数据集摘要 (" ++ focus_area ++ ")")),
           ("messages", .vArr
             [promptMessageValue "system"
                ("创建数据集 " ++ dataset_id ++ " 的 " ++ focus_area ++ " 摘要。")])], st)
    | _ => .error (.otherExc "AttributeError" "no attribute get")
  else
    .error (.domain MCPErrorCodes.RESOURCE_NOT_FOUND ("未知提示: " ++ name))

/-- The method-routing chain of `MCPServer._handle_request`: `none` for an
unknown method, otherwise the chosen handler's outcome. -/
def routeMethod (st : ServerState) (now : ℚ) (method : String)
    (params : List (String × Value)) : Option (Except PyExc (Value × ServerState)) :=
  if method = "initialize" then some (handleInitialize st params)
  else if method = "tools/list" then some (handleToolsList st params)
  else if method = "tools/call" then some (handleToolsCall st now params)
  else if method = "resources/list" then some (handleResourcesList st params)
  else if method = "resources/read" then some (handleResourcesRead st params)
  else if method = "prompts/list" then some (handlePromptsList st params)
  else if method = "prompts/get" then some (handlePromptsGet st params)
  else none

/-- The response-envelope step of `_handle_request`: an unrouted method yields
`METHOD_NOT_FOUND`; a handler's value becomes the `result`; a handler's
exception goes through the error taxonomy.  Every branch carries the
request's id. -/
def wrapRouted (rid : RequestId) (method : String) (st : ServerState)
    (routed : Option (Except PyExc (Value × ServerState))) :
    MCPResponse × ServerState :=
  match routed with
  | none =>
      ({ id := rid
       , error := some { code := MCPErrorCodes.METHOD_NOT_FOUND
                       , message := "未知方法: " ++ method } }, st)
  | some (.ok (v, st2)) => ({ id := rid, result := some v }, st2)
  | some (.error e) => ({ id := rid, error := some (handleException e) }, st)

/-- `MCPServer._handle_request` at wall-clock instant `now`.  A handler's
`CogneeBaseException` or generic exception is caught at this boundary and
converted by the error taxonomy; no handler mutates the modelled state before
raising, so the pre-request state is kept on the error path. -/
def handleRequest (st : ServerState) (now : ℚ) (req : MCPRequest) :
    MCPResponse × ServerState :=
  wrapRouted req.id req.method st (routeMethod st now req.method req.params)

/-- One line of input after `json.loads`: either the parse failed, or it
produced a JSON object.  (Lines parsing to non-object JSON values are outside
the behaviour the claims quantify over and are not modelled.) -/
inductive InputLine where
  | malformed (raw : String)
  | parsedObj (fields : List (String × Value))

/-- `MCPServer._create_error_response(request_id, code, message)`: builds
`MCPResponse(id=request_id, error=…)`.  The `id` field is a required
`Union[str, int]`, so the construction itself validates the id and raises a
pydantic `ValidationError` (modelled as `none`) whenever `request_id` is not a
string or an integer — in particular for `request_id=None`
(`Value.vNull`). -/
def createErrorResponse (request_id : Value) (code : Int) (message : String) :
    Option MCPResponse :=
  match parseRequestId request_id with
  | some rid => some { id := rid, error := some { code := code, message := message } }
  | none => none

/-- `MCPRequest(**data)`: the required `id` must validate as `Union[str,int]`,
`method` must be a string, and `params` defaults to `None` and must otherwise
be a dict or `null` (`Optional[Dict]`).  `none` models a pydantic
`ValidationError` raised by the construction. -/
def buildRequest (fields : List (String × Value)) : Option MCPRequest :=
  match parseRequestId ((alookup fields "id").getD .vNull) with
  | none => none
  | some rid =>
      match alookup fields "method" with
      | some (.vStr m) =>
          match alookup fields "params" with
          | none => some { id := rid, method := m, params := [] }
          | some .vNull => some { id := rid, method := m, params := [] }
          | some (.vObj ps) => some { id := rid, method := m, params := ps }
          | some _ => none
      | _ => none

/-- `MCPServer._handle_message` at wall-clock instant `now`:
bump `_request_count`; on a JSON parse failure the handler *attempts*
`_create_error_response(None, PARSE_ERROR, …)`, whose construction raises
(the null id is rejected) inside the `except json.JSONDecodeError` block —
the exception escapes `_handle_message`, `_message_loop` logs it, bumps
`_error_count`, and no response is emitted; an object without an `"id"`
member is a notification (`_handle_notification` only logs) and yields no
response; otherwise the request is handled — when constructing `MCPRequest`
fails, the outer `except Exception` bumps `_error_count`, recovers the raw id
from the payload, and attempts an error response with it, which again raises
(and is swallowed by the loop, with a second `_error_count` bump) when the
recovered id is not a string or an integer. -/
def handleMessage (st : ServerState) (now : ℚ) (line : InputLine) :
    Option MCPResponse × ServerState :=
  let st := { st with request_count := st.request_count + 1 }
  match line with
  | .malformed raw =>
      match createErrorResponse .vNull MCPErrorCodes.PARSE_ERROR
          ("JSON解析错误: " ++ jsonErrDetail raw) with
      | some resp => (some resp, st)
      | none => (none, { st with error_count := st.error_count + 1 })
  | .parsedObj fields =>
      if !amem fields "id" then
        (none, st)
      else
        match buildRequest fields with
        | some req =>
            let handled := handleRequest st now req
            (some handled.1, handled.2)
        | none =>
            let st := { st with error_count := st.error_count + 1 }
            let merr := handleException (.otherExc "ValidationError" pydanticErrText)
            match createErrorResponse ((alookup fields "id").getD .vNull)
                merr.code merr.message with
            | some resp => (some resp, st)
            | none => (none, { st with error_count := st.error_count + 1 })

/-- `MCPServer._message_loop` over a finite input (blank-line skipping and the
EOF exit happen before `_handle_message` and are not modelled; the wall clock
is held fixed across the run).  Each produced response is written out
immediately, so the output is the concatenation, in order, of the responses of
the individual lines. -/
def messageLoop (st : ServerState) (now : ℚ) :
    List InputLine → List MCPResponse × ServerState
  | [] => ([], st)
  | l :: ls =>
      let handled := handleMessage st now l
      let rest := messageLoop handled.2 now ls
      (handled.1.toList ++ rest.1, rest.2)

/-! ## Observation helpers used by the statements below -/

/-- The wall-clock duration of one `execute` invocation, whether it returns or
raises. -/
def ExecOutcome.duration : ExecOutcome → ℚ
  | .ok _ d => d
  | .raises _ d => d

/-- The `_execution_stats` of the named tool, as held by the registry. -/
def toolStats (reg : Registry) (name : String) : Option ExecutionStats :=
  (alookup reg.tools name).map (fun t => t.stats)

/-- A sequence of `_check_rate_limit` consultations for one tool at the given
instants, returning how many passed together with the final limiter state. -/
def runChecks (limiters : List (String × RateLimiter)) (name : String) :
    List ℚ → Nat × List (String × RateLimiter)
  | [] => (0, limiters)
  | t :: ts =>
      let c := checkRateLimit limiters name t
      let rest := runChecks c.2 name ts
      ((if c.1 then 1 else 0) + rest.1, rest.2)

/-- A sequence of `update_stats` calls, each carrying an execution time and a
success flag. -/
def applyUpdates (s : ExecutionStats) : List (ℚ × Bool) → ExecutionStats
  | [] => s
  | u :: us => applyUpdates (updateStats s u.1 u.2) us

/-! ## Concrete sample instances (used to evaluate the theorems below on
closed inputs) -/

/-- A first registration under the name `echo`. -/
def echoTool1 : Tool :=
  { metadata := { name := "echo", category := .basic, description := "first version" }
  , schema := {}
  , run := fun _ => .ok (.vStr "one") 0 }

/-- A second registration under the same name `echo`. -/
def echoTool2 : Tool :=
  { metadata := { name := "echo", category := .graph, description := "second version" }
  , schema := {}
  , run := fun _ => .ok (.vStr "two") 0 }

/-- A tool named `fetch` with `rate_limit=5`. -/
def limitedTool5 : Tool :=
  { metadata := { name := "fetch", category := .basic, description := "limited"
                , rate_limit := some 5 }
  , schema := {}
  , run := fun _ => .ok .vNull 0 }

/-- A replacement for `fetch` with `rate_limit=7`. -/
def limitedTool7 : Tool :=
  { metadata := { name := "fetch", category := .basic, description := "relimited"
                , rate_limit := some 7 }
  , schema := {}
  , run := fun _ => .ok .vNull 0 }

/-- A replacement for `fetch` with `rate_limit=None`. -/
def limitedToolNone : Tool :=
  { metadata := { name := "fetch", category := .basic, description := "unlimited"
                , rate_limit := none }
  , schema := {}
  , run := fun _ => .ok .vNull 0 }

/-- A tool named `slow` whose execution takes 2 seconds against a 1-second
metadata timeout (the §8 Scenario C shape). -/
def slowTool : Tool :=
  { metadata := { name := "slow", category := .basic, description := "sleeps 2s"
                , timeout := 1 }
  , schema := {}
  , run := fun _ => .ok .vNull 2 }

/-- A tool named `add` requiring a number argument `a` (the §8 Scenario D
shape). -/
def addTool : Tool :=
  { metadata := { name := "add", category := .basic, description := "adds" }
  , schema := { properties := [("a", some "number")], required := ["a"] }
  , run := fun _ => .ok (.vInt 3) 0 }

/-! # Theorems

General lemmas first, then one theorem per claim (with its witness or
counterexample). -/

theorem alookup_aset_self {α : Type} (l : List (String × α)) (k : String) (v : α) :
    alookup (aset l k v) k = some v := by
  induction l with
  | nil => simp [aset, alookup]
  | cons hd tl ih =>
      obtain ⟨k0, v0⟩ := hd
      by_cases h : k0 = k <;> simp [aset, alookup, h, ih]

theorem alookup_aset_other {α : Type} (l : List (String × α)) (k k2 : String) (v : α)
    (h : k ≠ k2) : alookup (aset l k v) k2 = alookup l k2 := by
  induction l with
  | nil => simp [aset, alookup, h]
  | cons hd tl ih =>
      obtain ⟨k0, v0⟩ := hd
      by_cases h0 : k0 = k
      · subst h0; simp [aset, alookup, h]
      · simp [aset, alookup, h0, ih]

theorem aset_aset_self {α : Type} (l : List (String × α)) (k : String) (v w : α) :
    aset (aset l k v) k w = aset l k w := by
  induction l with
  | nil => simp [aset]
  | cons hd tl ih =>
      obtain ⟨k0, v0⟩ := hd
      by_cases h : k0 = k <;> simp [aset, h, ih]

theorem registerTool_tools (r : Registry) (t : Tool) :
    (registerTool r t).tools = aset r.tools t.metadata.name t := by
  unfold registerTool
  by_cases hb : truthyLimit t.metadata.rate_limit <;> simp [hb]

theorem registerTool_limiters_falsy (r : Registry) (t : Tool)
    (h : truthyLimit t.metadata.rate_limit = false) :
    (registerTool r t).rate_limiters = r.rate_limiters := by
  unfold registerTool
  simp [h]

theorem registerTool_limiters_truthy (r : Registry) (t : Tool)
    (h : truthyLimit t.metadata.rate_limit = true) :
    (registerTool r t).rate_limiters =
      aset r.rate_limiters t.metadata.name
        { calls := 0, reset_time := none, limit := t.metadata.rate_limit.getD 0 } := by
  unfold registerTool
  simp [h]

/-- C8: every generic (non-domain) exception is mapped by its exact type:
`ValueError`/`TypeError`/`KeyError` → `-32602` (INVALID_PARAMS),
`FileNotFoundError` → `-32003` (RESOURCE_NOT_FOUND),
`PermissionError` → `-32002` (AUTHORIZATION_ERROR),
`ConnectionError`/`TimeoutError` → `-32004` (RESOURCE_UNAVAILABLE),
and any other exception type → `-32603` (INTERNAL_ERROR). -/
theorem generic_exception_code_mapping :
    (∀ m, (handleException (.valueError m)).code = -32602) ∧
    (∀ m, (handleException (.typeError m)).code = -32602) ∧
    (∀ m, (handleException (.keyError m)).code = -32602) ∧
    (∀ m, (handleException (.fileNotFoundError m)).code = -32003) ∧
    (∀ m, (handleException (.permissionError m)).code = -32002) ∧
    (∀ m, (handleException (.connectionError m)).code = -32004) ∧
    (∀ m, (handleException (.timeoutError m)).code = -32004) ∧
    (∀ t m, t ∉ ["ValueError", "TypeError", "KeyError", "FileNotFoundError",
                 "PermissionError", "ConnectionError", "TimeoutError"] →
      (handleException (.otherExc t m)).code = -32603) := by
  refine ⟨fun m => rfl, fun m => rfl, fun m => rfl, fun m => rfl,
          fun m => rfl, fun m => rfl, fun m => rfl, ?_⟩
  intro t m ht
  simp only [List.mem_cons, List.mem_singleton, not_or] at ht
  obtain ⟨h1, h2, h3, h4, h5, h6, h7, _⟩ := ht
  simp [handleException, convertStandardException, errorMapping, alookup,
        PyExc.typeName, Ne.symm h1, Ne.symm h2, Ne.symm h3, Ne.symm h4,
        Ne.symm h5, Ne.symm h6, Ne.symm h7, MCPErrorCodes.INTERNAL_ERROR]

/-- Witness for C8 at the concrete exception type `RuntimeError`. -/
theorem generic_exception_code_mapping_witness :
    (handleException (.otherExc "RuntimeError" "boom")).code = -32603 :=
  generic_exception_code_mapping.2.2.2.2.2.2.2 "RuntimeError" "boom" (by decide)

/-- C7: registering a second tool under an already-taken name replaces the
first: `get` returns the second tool, `list_tools` is indistinguishable from
having registered only the second, and from an empty registry the listing is
exactly the second tool's definition. -/
theorem register_same_name_last_wins (reg0 : Registry) (t1 t2 : Tool)
    (h : t1.metadata.name = t2.metadata.name) :
    getTool (registerTool (registerTool reg0 t1) t2) t2.metadata.name = some t2 ∧
    (∀ c e, listTools (registerTool (registerTool reg0 t1) t2) c e
          = listTools (registerTool reg0 t2) c e) ∧
    (t2.metadata.enabled = true →
      listTools (registerTool (registerTool emptyRegistry t1) t2) none true
        = [t2.toToolDefinition]) := by
  have htools : (registerTool (registerTool reg0 t1) t2).tools
      = (registerTool reg0 t2).tools := by
    rw [registerTool_tools, registerTool_tools, registerTool_tools, h, aset_aset_self]
  refine ⟨?_, ?_, ?_⟩
  · unfold getTool
    rw [htools, registerTool_tools, alookup_aset_self]
  · intro c e
    unfold listTools
    rw [htools]
  · intro he
    have h2 : (registerTool (registerTool emptyRegistry t1) t2).tools
        = [(t2.metadata.name, t2)] := by
      rw [registerTool_tools, registerTool_tools, h, aset_aset_self]
      simp [emptyRegistry, aset]
    unfold listTools
    rw [h2]
    simp [he]

/-- Witness for C7 on the two concrete `echo` registrations. -/
theorem register_same_name_last_wins_witness :
    getTool (registerTool (registerTool emptyRegistry echoTool1) echoTool2)
        echoTool2.metadata.name = some echoTool2 ∧
    (∀ c e, listTools (registerTool (registerTool emptyRegistry echoTool1) echoTool2) c e
          = listTools (registerTool emptyRegistry echoTool2) c e) ∧
    (echoTool2.metadata.enabled = true →
      listTools (registerTool (registerTool emptyRegistry echoTool1) echoTool2) none true
        = [echoTool2.toToolDefinition]) :=
  register_same_name_last_wins emptyRegistry echoTool1 echoTool2 rfl

/-- C9 counterexample: registering `fetch` with `rate_limit=5` and then a
replacement with the different limit `7` does update the limiter entry —
`register_tool` re-creates it with the new limit (so the claim's "or a
different limit" case fails on the code). -/
theorem rate_limiter_replaced_counterexample :
    alookup (registerTool (registerTool emptyRegistry limitedTool5) limitedTool7).rate_limiters
        "fetch" = some { calls := 0, reset_time := none, limit := 7 } ∧
    alookup (registerTool emptyRegistry limitedTool5).rate_limiters
        "fetch" = some { calls := 0, reset_time := none, limit := 5 } ∧
    ({ calls := 0, reset_time := none, limit := 7 } : RateLimiter) ≠
      { calls := 0, reset_time := none, limit := 5 } :=
  ⟨rfl, rfl, by decide⟩

/-- C9 amended: when the replacement's `rate_limit` is falsy (`None` or `0`),
the limiter entry created by the first registration is neither removed nor
updated, so the rate-limit stage for the replacement tool still consults the
original limit. -/
theorem rate_limiter_survives_falsy_reregistration (reg0 : Registry) (t1 t2 : Tool)
    (hname : t1.metadata.name = t2.metadata.name)
    (h1 : truthyLimit t1.metadata.rate_limit = true)
    (h2 : truthyLimit t2.metadata.rate_limit = false) :
    (registerTool (registerTool reg0 t1) t2).rate_limiters
      = (registerTool reg0 t1).rate_limiters ∧
    alookup (registerTool (registerTool reg0 t1) t2).rate_limiters t2.metadata.name
      = some { calls := 0, reset_time := none, limit := t1.metadata.rate_limit.getD 0 } ∧
    (∀ now, checkRateLimit (registerTool (registerTool reg0 t1) t2).rate_limiters
              t2.metadata.name now
          = checkRateLimit (registerTool reg0 t1).rate_limiters t2.metadata.name now) := by
  have hrl : (registerTool (registerTool reg0 t1) t2).rate_limiters
      = (registerTool reg0 t1).rate_limiters := registerTool_limiters_falsy _ _ h2
  refine ⟨hrl, ?_, fun now => by rw [hrl]⟩
  rw [hrl, registerTool_limiters_truthy _ _ h1, ← hname, alookup_aset_self]

/-- Witness for the amended C9: `fetch` registered with limit 5 and replaced
by a `rate_limit=None` version keeps the limit-5 limiter entry. -/
theorem rate_limiter_survives_falsy_reregistration_witness :
    (registerTool (registerTool emptyRegistry limitedTool5) limitedToolNone).rate_limiters
      = (registerTool emptyRegistry limitedTool5).rate_limiters ∧
    alookup (registerTool (registerTool emptyRegistry limitedTool5) limitedToolNone).rate_limiters
        limitedToolNone.metadata.name
      = some { calls := 0, reset_time := none
             , limit := limitedTool5.metadata.rate_limit.getD 0 } ∧
    (∀ now, checkRateLimit
              (registerTool (registerTool emptyRegistry limitedTool5) limitedToolNone).rate_limiters
              limitedToolNone.metadata.name now
          = checkRateLimit (registerTool emptyRegistry limitedTool5).rate_limiters
              limitedToolNone.metadata.name now) :=
  rate_limiter_survives_falsy_reregistration emptyRegistry limitedTool5 limitedToolNone
    rfl rfl rfl

theorem resetIfDue_within (lim : RateLimiter) (now r : ℚ)
    (h : lim.reset_time = some r) (hn : now < r) : resetIfDue lim now = lim := by
  unfold resetIfDue
  rw [h]
  simp [not_le.mpr hn]

theorem checkRateLimit_reject (lims : List (String × RateLimiter)) (name : String)
    (now : ℚ) (lim : RateLimiter) (hl : alookup lims name = some lim)
    (hge : (lim.calls : Int) ≥ lim.limit) (hres : resetIfDue lim now = lim) :
    checkRateLimit lims name now = (false, aset lims name lim) := by
  unfold checkRateLimit
  rw [hl]
  simp [hres, hge]

theorem checkRateLimit_pass (lims : List (String × RateLimiter)) (name : String)
    (now : ℚ) (lim : RateLimiter) (hl : alookup lims name = some lim)
    (hlt : (lim.calls : Int) < lim.limit) (hres : resetIfDue lim now = lim) :
    checkRateLimit lims name now = (true, aset lims name { lim with calls := lim.calls + 1 }) := by
  unfold checkRateLimit
  rw [hl]
  simp [hres, not_le.mpr hlt]

/-- At most `limit - calls` further consultations pass while the wall clock
stays inside the current window (no reset becomes due). -/
theorem runChecks_bound (name : String) (N : Nat) :
    ∀ (ts : List ℚ) (lims : List (String × RateLimiter)) (lim : RateLimiter) (r : ℚ),
      alookup lims name = some lim → lim.reset_time = some r →
      lim.limit = (N : Int) → lim.calls ≤ N →
      (∀ t ∈ ts, t < r) →
      (runChecks lims name ts).1 + lim.calls ≤ N := by
  intro ts
  induction ts with
  | nil =>
      intro lims lim r hl hr hN hc ht
      simpa [runChecks] using hc
  | cons t ts ih =>
      intro lims lim r hl hr hN hc ht
      have htr : t < r := ht t (List.mem_cons_self t ts)
      have hrest : ∀ u ∈ ts, u < r := fun u hu => ht u (List.mem_cons_of_mem _ hu)
      have hres : resetIfDue lim t = lim := resetIfDue_within lim t r hr htr
      by_cases hge : (lim.calls : Int) ≥ lim.limit
      · have hck := checkRateLimit_reject lims name t lim hl hge hres
        have hl2 : alookup (aset lims name lim) name = some lim := alookup_aset_self _ _ _
        have hrec := ih (aset lims name lim) lim r hl2 hr hN hc hrest
        simp only [runChecks, hck, if_neg (Bool.false_ne_true)]
        omega
      · push_neg at hge
        have hck := checkRateLimit_pass lims name t lim hl hge hres
        have hl2 : alookup (aset lims name { lim with calls := lim.calls + 1 }) name
            = some { lim with calls := lim.calls + 1 } := alookup_aset_self _ _ _
        have hc2 : lim.calls + 1 ≤ N := by
          rw [hN] at hge
          exact_mod_cast hge
        have hrec := ih (aset lims name { lim with calls := lim.calls + 1 })
          { lim with calls := lim.calls + 1 } r hl2 hr hN hc2 hrest
        simp only [runChecks] at hrec ⊢
        simp [hck] at hrec ⊢
        omega

/-- C4: for a tool whose limiter has `limit = N`, (1) at most `N - calls`
consultations pass the rate-limit stage while the clock stays inside the
current window — in particular at most `N` in a window entered with
`calls = 0`; (2) a rejected consultation inside the window leaves the limiter
entry (its count included) unchanged; (3) once `now` reaches the reset time
(or no window exists yet) the count is reset to 0, so with `limit ≥ 1` the
consultation passes and a fresh 60-second window starts with `calls = 1`;
(4) inside `call_tool`, a failed rate-limit consultation short-circuits to an
`isError=true` outcome without touching anything but the limiter state. -/
theorem rate_limit_window_invariant :
    (∀ (name : String) (N : Nat) (ts : List ℚ) lims (lim : RateLimiter) (r : ℚ),
       alookup lims name = some lim → lim.reset_time = some r →
       lim.limit = (N : Int) → lim.calls ≤ N → (∀ t ∈ ts, t < r) →
       (runChecks lims name ts).1 + lim.calls ≤ N) ∧
    (∀ (name : String) (now : ℚ) lims (lim : RateLimiter) (r : ℚ),
       alookup lims name = some lim → lim.reset_time = some r → now < r →
       (checkRateLimit lims name now).1 = false →
       alookup (checkRateLimit lims name now).2 name = some lim) ∧
    (∀ (name : String) (now : ℚ) lims (lim : RateLimiter),
       alookup lims name = some lim →
       (lim.reset_time = none ∨ ∃ r, lim.reset_time = some r ∧ now ≥ r) →
       1 ≤ lim.limit →
       (checkRateLimit lims name now).1 = true ∧
       alookup (checkRateLimit lims name now).2 name
         = some { calls := 1, reset_time := some (now + 60), limit := lim.limit }) ∧
    (∀ (reg : Registry) (now : ℚ) (name : String) args (tool : Tool),
       alookup reg.tools name = some tool →
       tool.metadata.enabled = true →
       (checkRateLimit reg.rate_limiters name now).1 = false →
       callTool reg now name args
         = (errorOutcome (rateLimitedMsg name),
            { reg with rate_limiters := (checkRateLimit reg.rate_limiters name now).2 }) ∧
       (errorOutcome (rateLimitedMsg name)).isError = true) := by
  refine ⟨runChecks_bound, ?_, ?_, ?_⟩
  · intro name now lims lim r hl hr hn hrej
    have hres : resetIfDue lim now = lim := resetIfDue_within lim now r hr hn
    by_cases hge : (lim.calls : Int) ≥ lim.limit
    · rw [checkRateLimit_reject lims name now lim hl hge hres]
      exact alookup_aset_self _ _ _
    · push_neg at hge
      rw [checkRateLimit_pass lims name now lim hl hge hres] at hrej
      simp at hrej
  · intro name now lims lim hl hdue hpos
    have hres : resetIfDue lim now
        = { lim with calls := 0, reset_time := some (now + 60) } := by
      rcases hdue with h0 | ⟨r, hr, hge⟩
      · unfold resetIfDue; rw [h0]
      · unfold resetIfDue; rw [hr]; simp [hge]
    have hlt : ((0 : Nat) : Int) < lim.limit := by omega
    have hn0 : ¬ lim.limit ≤ 0 := by omega
    constructor
    · unfold checkRateLimit
      rw [hl]
      simp [hres, not_le.mpr hlt, hn0]
    · unfold checkRateLimit
      rw [hl]
      simp [hres, not_le.mpr hlt, hn0, alookup_aset_self]
  · intro reg now name args tool htool hen hrej
    refine ⟨?_, rfl⟩
    unfold callTool
    rw [htool]
    simp [hen, hrej]

/-- Witness for C4: a `fetch` limiter with `limit = 2` lets at most 2 of the
instants `1, 2, 3` (all inside a window resetting at 100) pass; a due reset at
`now = 120` passes with the count restarted; a saturated limiter makes
`call_tool` return the rate-limited outcome. -/
theorem rate_limit_window_invariant_witness :
    ((runChecks [("fetch", { calls := 0, reset_time := some 100, limit := 2 })]
        "fetch" [1, 2, 3]).1 + 0 ≤ 2) ∧
    ((checkRateLimit [("fetch", { calls := 2, reset_time := some 100, limit := 2 })]
        "fetch" 120).1 = true ∧
     alookup (checkRateLimit [("fetch", { calls := 2, reset_time := some 100, limit := 2 })]
        "fetch" 120).2 "fetch"
       = some { calls := 1, reset_time := some (120 + 60), limit := 2 }) ∧
    (callTool
        { tools := [("fetch", limitedTool5)]
        , categories := []
        , rate_limiters := [("fetch", { calls := 5, reset_time := some 100, limit := 5 })] }
        1 "fetch" []
      = (errorOutcome (rateLimitedMsg "fetch"),
         { tools := [("fetch", limitedTool5)]
         , categories := []
         , rate_limiters :=
             (checkRateLimit [("fetch", { calls := 5, reset_time := some 100, limit := 5 })]
               "fetch" 1).2 })) := by
  refine ⟨?_, ?_, ?_⟩
  · exact rate_limit_window_invariant.1 "fetch" 2 [1, 2, 3] _
      { calls := 0, reset_time := some 100, limit := 2 } 100 rfl rfl rfl
      (by decide) (by decide)
  · exact rate_limit_window_invariant.2.2.1 "fetch" 120 _
      { calls := 2, reset_time := some 100, limit := 2 } rfl
      (Or.inr ⟨100, rfl, by norm_num⟩) (by decide)
  · exact (rate_limit_window_invariant.2.2.2
      { tools := [("fetch", limitedTool5)]
      , categories := []
      , rate_limiters := [("fetch", { calls := 5, reset_time := some 100, limit := 5 })] }
      1 "fetch" [] limitedTool5 rfl rfl (by decide)).1

theorem updateStats_fields (s : ExecutionStats) (t : ℚ) (b : Bool) :
    (updateStats s t b).total_calls = s.total_calls + 1 ∧
    (updateStats s t b).successful_calls
      = s.successful_calls + (if b then 1 else 0) ∧
    (updateStats s t b).failed_calls = s.failed_calls + (if b then 0 else 1) ∧
    (updateStats s t b).total_execution_time = s.total_execution_time + t ∧
    (updateStats s t b).average_execution_time
      = (s.total_execution_time + t) / ((s.total_calls + 1 : Nat) : ℚ) := by
  unfold updateStats
  cases b <;> simp

theorem filter_length_split (us : List (ℚ × Bool)) :
    (us.filter (fun u => u.2)).length + (us.filter (fun u => !u.2)).length
      = us.length := by
  induction us with
  | nil => simp
  | cons u us ih =>
      rcases u with ⟨t, b⟩
      cases b <;> simp [List.filter] <;> omega

theorem applyUpdates_counts :
    ∀ (us : List (ℚ × Bool)) (s : ExecutionStats),
      (applyUpdates s us).total_calls = s.total_calls + us.length ∧
      (applyUpdates s us).successful_calls
        = s.successful_calls + (us.filter (fun u => u.2)).length ∧
      (applyUpdates s us).failed_calls
        = s.failed_calls + (us.filter (fun u => !u.2)).length ∧
      (applyUpdates s us).total_execution_time
        = s.total_execution_time + (us.map (fun u => u.1)).sum := by
  intro us
  induction us with
  | nil => intro s; simp [applyUpdates]
  | cons u us ih =>
      intro s
      obtain ⟨h1, h2, h3, h4⟩ := ih (updateStats s u.1 u.2)
      obtain ⟨g1, g2, g3, g4, g5⟩ := updateStats_fields s u.1 u.2
      refine ⟨?_, ?_, ?_, ?_⟩
      · simp [applyUpdates, h1, g1]; omega
      · rcases u with ⟨t, b⟩
        cases b <;>
          simp [applyUpdates, List.filter] at h2 g2 ⊢ <;> omega
      · rcases u with ⟨t, b⟩
        cases b <;>
          simp [applyUpdates, List.filter] at h3 g3 ⊢ <;> omega
      · simp [applyUpdates, h4, g4]; ring

theorem applyUpdates_avg :
    ∀ (us : List (ℚ × Bool)) (s : ExecutionStats), us ≠ [] →
      (applyUpdates s us).average_execution_time
        = (applyUpdates s us).total_execution_time
          / (((applyUpdates s us).total_calls : Nat) : ℚ) := by
  intro us
  induction us with
  | nil => intro s h; exact absurd rfl h
  | cons u us ih =>
      intro s _
      rcases hus : us with _ | ⟨u2, us2⟩
      · obtain ⟨g1, g2, g3, g4, g5⟩ := updateStats_fields s u.1 u.2
        simp only [applyUpdates]
        rw [g5, g4, g1]
      · rw [← hus]
        have hne : us ≠ [] := by rw [hus]; simp
        simpa [applyUpdates] using ih (updateStats s u.1 u.2) hne

theorem toolStats_update (reg : Registry) (name : String) (tool : Tool)
    (t : ℚ) (b : Bool) (h : alookup reg.tools name = some tool) :
    toolStats (updateToolStats reg name t b) name
      = some (updateStats tool.stats t b) := by
  unfold toolStats updateToolStats
  rw [h]
  simp [alookup_aset_self]

theorem toolStats_congr (r1 r2 : Registry) (h : r1.tools = r2.tools)
    (name : String) : toolStats r1 name = toolStats r2 name := by
  unfold toolStats
  rw [h]

/-- C6: (1) starting from fresh stats, after a sequence of executions of which
`K` succeed and `M` fail, `total_calls = K + M`, `successful_calls = K`,
`failed_calls = M`, and (for at least one call)
`average_execution_time = total_execution_time / (K + M)`;
(2) an execution whose duration exceeds `metadata.timeout` yields an
`isError=true` outcome carrying the timeout message, and increments
`failed_calls` by exactly 1, leaving `successful_calls` unchanged. -/
theorem execution_stats_accounting :
    (∀ us : List (ℚ × Bool),
      (applyUpdates {} us).total_calls
        = (us.filter (fun u => u.2)).length + (us.filter (fun u => !u.2)).length ∧
      (applyUpdates {} us).successful_calls = (us.filter (fun u => u.2)).length ∧
      (applyUpdates {} us).failed_calls = (us.filter (fun u => !u.2)).length ∧
      (us ≠ [] →
        (applyUpdates {} us).average_execution_time
          = (applyUpdates {} us).total_execution_time
            / ((((us.filter (fun u => u.2)).length
                + (us.filter (fun u => !u.2)).length : Nat)) : ℚ))) ∧
    (∀ (reg : Registry) (now : ℚ) (name : String) args (tool : Tool) (d : ℚ),
      alookup reg.tools name = some tool →
      tool.metadata.enabled = true →
      (checkRateLimit reg.rate_limiters name now).1 = true →
      validateArguments tool.schema args = .ok () →
      (tool.run args).duration = d →
      d > tool.metadata.timeout →
      (callTool reg now name args).1 = errorOutcome (timeoutMsg name) ∧
      (errorOutcome (timeoutMsg name)).isError = true ∧
      toolStats (callTool reg now name args).2 name
        = some (updateStats tool.stats tool.metadata.timeout false) ∧
      (updateStats tool.stats tool.metadata.timeout false).failed_calls
        = tool.stats.failed_calls + 1 ∧
      (updateStats tool.stats tool.metadata.timeout false).successful_calls
        = tool.stats.successful_calls) := by
  constructor
  · intro us
    obtain ⟨h1, h2, h3, h4⟩ := applyUpdates_counts us {}
    refine ⟨?_, by simpa using h2, by simpa using h3, ?_⟩
    · rw [h1, filter_length_split]; simp
    · intro hne
      rw [applyUpdates_avg us {} hne, h1, filter_length_split]
      simp
  · intro reg now name args tool d htool hen hrate hval hdur hto
    obtain ⟨g1, g2, g3, g4, g5⟩ := updateStats_fields tool.stats tool.metadata.timeout false
    have hupd : toolStats
        (updateToolStats { reg with rate_limiters := (checkRateLimit reg.rate_limiters name now).2 }
          name tool.metadata.timeout false) name
        = some (updateStats tool.stats tool.metadata.timeout false) :=
      toolStats_update _ name tool tool.metadata.timeout false htool
    rcases hrun : tool.run args with ⟨v, dd⟩ | ⟨m, dd⟩ <;>
      rw [hrun] at hdur <;>
      simp only [ExecOutcome.duration] at hdur <;>
      subst hdur
    · unfold callTool
      rw [htool]
      simp only [hen, Bool.not_true, Bool.false_eq_true, if_false, hrate,
        Bool.not_false, if_true, hval, hrun, if_pos hto]
      exact ⟨trivial, rfl, hupd, by simpa using g3, by simpa using g2⟩
    · unfold callTool
      rw [htool]
      simp only [hen, Bool.not_true, Bool.false_eq_true, if_false, hrate,
        Bool.not_false, if_true, hval, hrun, if_pos hto]
      exact ⟨trivial, rfl, hupd, by simpa using g3, by simpa using g2⟩

/-- Witness for C6: two successes and one failure from fresh stats give
`total_calls = 3`, `successful_calls = 2`, `failed_calls = 1` and the average
equation; the 2-second `slow` tool against its 1-second timeout returns the
timeout outcome and bumps `failed_calls` to 1. -/
theorem execution_stats_accounting_witness :
    ((applyUpdates {} [(1, true), (2, true), (4, false)]).total_calls
        = ([( (1:ℚ), true), (2, true), (4, false)].filter (fun u => u.2)).length
          + ([( (1:ℚ), true), (2, true), (4, false)].filter (fun u => !u.2)).length) ∧
    ((callTool (registerTool emptyRegistry slowTool) 0 "slow" []).1
        = errorOutcome (timeoutMsg "slow") ∧
     toolStats (callTool (registerTool emptyRegistry slowTool) 0 "slow" []).2 "slow"
        = some (updateStats slowTool.stats slowTool.metadata.timeout false) ∧
     (updateStats slowTool.stats slowTool.metadata.timeout false).failed_calls
        = slowTool.stats.failed_calls + 1) := by
  constructor
  · exact (execution_stats_accounting.1 [(1, true), (2, true), (4, false)]).1
  · have h := execution_stats_accounting.2 (registerTool emptyRegistry slowTool) 0
      "slow" [] slowTool 2 rfl rfl rfl rfl rfl (by norm_num [slowTool])
    exact ⟨h.1, h.2.2.1, h.2.2.2.1⟩

/-- C10: a `call_tool` invocation rejected before the execution stage —
unknown tool (1), disabled tool (2), rate-limit rejection (3), or
argument-validation failure (4) — leaves every tool's `ExecutionStats`
unchanged (for (1) and (2) the whole registry is untouched; for (3) and (4)
only the rate-limiter state changes); an invocation that reaches the
execution stage (5) increments the target tool's `total_calls` by 1. -/
theorem preexec_rejection_stats_frame :
    (∀ (reg : Registry) (now : ℚ) (name : String) args,
       alookup reg.tools name = none →
       (callTool reg now name args).2 = reg) ∧
    (∀ (reg : Registry) (now : ℚ) (name : String) args (tool : Tool),
       alookup reg.tools name = some tool → tool.metadata.enabled = false →
       (callTool reg now name args).2 = reg) ∧
    (∀ (reg : Registry) (now : ℚ) (name : String) args (tool : Tool),
       alookup reg.tools name = some tool → tool.metadata.enabled = true →
       (checkRateLimit reg.rate_limiters name now).1 = false →
       (callTool reg now name args).2.tools = reg.tools ∧
       (∀ n, toolStats (callTool reg now name args).2 n = toolStats reg n)) ∧
    (∀ (reg : Registry) (now : ℚ) (name : String) args (tool : Tool) (emsg : String),
       alookup reg.tools name = some tool → tool.metadata.enabled = true →
       (checkRateLimit reg.rate_limiters name now).1 = true →
       validateArguments tool.schema args = .error emsg →
       (callTool reg now name args).2.tools = reg.tools ∧
       (∀ n, toolStats (callTool reg now name args).2 n = toolStats reg n)) ∧
    (∀ (reg : Registry) (now : ℚ) (name : String) args (tool : Tool),
       alookup reg.tools name = some tool → tool.metadata.enabled = true →
       (checkRateLimit reg.rate_limiters name now).1 = true →
       validateArguments tool.schema args = .ok () →
       (toolStats (callTool reg now name args).2 name).map (fun s => s.total_calls)
         = some (tool.stats.total_calls + 1)) := by
  refine ⟨?_, ?_, ?_, ?_, ?_⟩
  · intro reg now name args h
    unfold callTool
    rw [h]
  · intro reg now name args tool h hen
    unfold callTool
    rw [h]
    simp [hen]
  · intro reg now name args tool h hen hrej
    have hfr : (callTool reg now name args).2.tools = reg.tools := by
      unfold callTool
      rw [h]
      simp [hen, hrej]
    exact ⟨hfr, fun n => toolStats_congr _ _ hfr n⟩
  · intro reg now name args tool emsg h hen hrate hval
    have hfr : (callTool reg now name args).2.tools = reg.tools := by
      unfold callTool
      rw [h]
      simp [hen, hrate, hval]
    exact ⟨hfr, fun n => toolStats_congr _ _ hfr n⟩
  · intro reg now name args tool h hen hrate hval
    have h2 : alookup (Registry.mk reg.tools reg.categories
        (checkRateLimit reg.rate_limiters name now).2).tools name = some tool := h
    unfold callTool
    rw [h]
    simp only [hen, Bool.not_true, Bool.false_eq_true, if_false, hrate,
      Bool.not_false, if_true, hval]
    rcases hrun : tool.run args with ⟨v, dd⟩ | ⟨m, dd⟩
    · dsimp only
      by_cases hto : dd > tool.metadata.timeout
      · rw [if_pos hto, toolStats_update _ name tool _ _ h2]
        exact congrArg some (updateStats_fields tool.stats tool.metadata.timeout false).1
      · rw [if_neg hto, toolStats_update _ name tool _ _ h2]
        exact congrArg some (updateStats_fields tool.stats dd true).1
    · dsimp only
      by_cases hto : dd > tool.metadata.timeout
      · rw [if_pos hto, toolStats_update _ name tool _ _ h2]
        exact congrArg some (updateStats_fields tool.stats tool.metadata.timeout false).1
      · rw [if_neg hto, toolStats_update _ name tool _ _ h2]
        exact congrArg some (updateStats_fields tool.stats dd false).1

/-- Witness for C10: calling the unknown tool `nope` on an empty registry
leaves the registry unchanged; a valid call of `echo` bumps its
`total_calls` to 1. -/
theorem preexec_rejection_stats_frame_witness :
    (callTool emptyRegistry 0 "nope" []).2 = emptyRegistry ∧
    (toolStats (callTool (registerTool emptyRegistry echoTool1) 0 "echo" []).2
        "echo").map (fun s => s.total_calls)
      = some (echoTool1.stats.total_calls + 1) := by
  constructor
  · exact preexec_rejection_stats_frame.1 emptyRegistry 0 "nope" [] rfl
  · exact preexec_rejection_stats_frame.2.2.2.2
      (registerTool emptyRegistry echoTool1) 0 "echo" [] echoTool1 rfl rfl rfl rfl

/-- C1: the guarded `call_tool` pipeline applies its stages in this order —
existence lookup, enablement check, rate-limit check, argument validation,
timeout-bounded execution — and the first failing stage short-circuits to an
`isError=true` outcome whose message identifies that stage (the unknown,
disabled, rate-limited and timeout messages carry the tool name; the
validation message carries the validation failure; an execution exception
carries its text).  No stage raises a protocol-level error: `callTool` is
total and every branch returns a `ToolCallResult`. -/
theorem call_tool_pipeline_order (reg : Registry) (now : ℚ) (name : String)
    (args : List (String × Value)) :
    (∀ m, (errorOutcome m).isError = true) ∧
    (alookup reg.tools name = none →
      callTool reg now name args = (errorOutcome (unknownToolMsg name), reg) ∧
      ∃ pre post, unknownToolMsg name = pre ++ name ++ post) ∧
    (∀ tool, alookup reg.tools name = some tool → tool.metadata.enabled = false →
      callTool reg now name args = (errorOutcome (disabledToolMsg name), reg) ∧
      ∃ pre post, disabledToolMsg name = pre ++ name ++ post) ∧
    (∀ tool, alookup reg.tools name = some tool → tool.metadata.enabled = true →
      (checkRateLimit reg.rate_limiters name now).1 = false →
      (callTool reg now name args).1 = errorOutcome (rateLimitedMsg name) ∧
      ∃ pre post, rateLimitedMsg name = pre ++ name ++ post) ∧
    (∀ tool emsg, alookup reg.tools name = some tool → tool.metadata.enabled = true →
      (checkRateLimit reg.rate_limiters name now).1 = true →
      validateArguments tool.schema args = .error emsg →
      (callTool reg now name args).1 = errorOutcome (validationFailedMsg emsg)) ∧
    (∀ tool, alookup reg.tools name = some tool → tool.metadata.enabled = true →
      (checkRateLimit reg.rate_limiters name now).1 = true →
      validateArguments tool.schema args = .ok () →
      ((tool.run args).duration > tool.metadata.timeout →
        (callTool reg now name args).1 = errorOutcome (timeoutMsg name) ∧
        ∃ pre post, timeoutMsg name = pre ++ name ++ post) ∧
      (∀ v d, tool.run args = .ok v d → ¬ d > tool.metadata.timeout →
        (callTool reg now name args).1 = formatSuccess v ∧
        (formatSuccess v).isError = false) ∧
      (∀ em d, tool.run args = .raises em d → ¬ d > tool.metadata.timeout →
        (callTool reg now name args).1 = errorOutcome (execFailedMsg em))) := by
  refine ⟨fun m => rfl, ?_, ?_, ?_, ?_, ?_⟩
  · intro h
    refine ⟨?_, ⟨"工具 " ++ sq, sq ++ " 不存在", ?_⟩⟩
    · unfold callTool; rw [h]
    · simp [unknownToolMsg, String.append_assoc]
  · intro tool h hen
    refine ⟨?_, ⟨"工具 " ++ sq, sq ++ " 已禁用", ?_⟩⟩
    · unfold callTool; rw [h]; simp [hen]
    · simp [disabledToolMsg, String.append_assoc]
  · intro tool h hen hrej
    refine ⟨?_, ⟨"工具 " ++ sq, sq ++ " 达到速率限制", ?_⟩⟩
    · unfold callTool; rw [h]; simp [hen, hrej]
    · simp [rateLimitedMsg, String.append_assoc]
  · intro tool emsg h hen hrate hval
    unfold callTool; rw [h]; simp [hen, hrate, hval]
  · intro tool h hen hrate hval
    refine ⟨?_, ?_, ?_⟩
    · intro hdur
      refine ⟨?_, ⟨"工具 " ++ sq, sq ++ " 执行超时", ?_⟩⟩
      · unfold callTool
        rw [h]
        simp only [hen, Bool.not_true, Bool.false_eq_true, if_false, hrate,
          Bool.not_false, if_true, hval]
        rcases hrun : tool.run args with ⟨v, d⟩ | ⟨em, d⟩ <;>
          rw [hrun] at hdur <;>
          simp only [ExecOutcome.duration] at hdur <;>
          dsimp only <;>
          rw [if_pos hdur]
      · simp [timeoutMsg, String.append_assoc]
    · intro v d hrun hdur
      refine ⟨?_, rfl⟩
      unfold callTool
      rw [h]
      simp only [hen, Bool.not_true, Bool.false_eq_true, if_false, hrate,
        Bool.not_false, if_true, hval, hrun]
      rw [if_neg hdur]
    · intro em d hrun hdur
      unfold callTool
      rw [h]
      simp only [hen, Bool.not_true, Bool.false_eq_true, if_false, hrate,
        Bool.not_false, if_true, hval, hrun]
      rw [if_neg hdur]

/-- Witness for C1: the unknown tool `nope` on an empty registry yields the
unknown-tool outcome with the registry untouched; calling `add` (which
requires `a`) without arguments yields the validation outcome. -/
theorem call_tool_pipeline_order_witness :
    (callTool emptyRegistry 0 "nope" []
        = (errorOutcome (unknownToolMsg "nope"), emptyRegistry) ∧
     ∃ pre post, unknownToolMsg "nope" = pre ++ "nope" ++ post) ∧
    (callTool (registerTool emptyRegistry addTool) 0 "add" []).1
      = errorOutcome (validationFailedMsg
          (validationErrMessage "a" ("缺少必需参数: " ++ "a"))) := by
  constructor
  · exact (call_tool_pipeline_order emptyRegistry 0 "nope" []).2.1 rfl
  · exact (call_tool_pipeline_order (registerTool emptyRegistry addTool) 0
      "add" []).2.2.2.2.1 addTool
      (validationErrMessage "a" ("缺少必需参数: " ++ "a")) rfl rfl rfl rfl

theorem wrapRouted_id (rid : RequestId) (method : String) (st : ServerState)
    (routed : Option (Except PyExc (Value × ServerState))) :
    (wrapRouted rid method st routed).1.id = rid := by
  rcases routed with _ | (⟨v, st2⟩ | e) <;> rfl

theorem handleRequest_id (st : ServerState) (now : ℚ) (req : MCPRequest) :
    (handleRequest st now req).1.id = req.id :=
  wrapRouted_id req.id req.method st (routeMethod st now req.method req.params)

theorem buildRequest_id (fields : List (String × Value)) (req : MCPRequest)
    (h : buildRequest fields = some req) :
    parseRequestId ((alookup fields "id").getD .vNull) = some req.id := by
  unfold buildRequest at h
  split at h
  · exact absurd h (by simp)
  · next rid heq =>
      split at h
      · split at h
        · simp only [Option.some.injEq] at h; rw [heq, ← h]
        · simp only [Option.some.injEq] at h; rw [heq, ← h]
        · simp only [Option.some.injEq] at h; rw [heq, ← h]
        · exact absurd h (by simp)
      · exact absurd h (by simp)

/-- C2 counterexample: the line `{"id": null, "method": "tools/list"}` has an
`"id"` member and is handled as a request, yet the dispatcher produces no
response — `MCPRequest(**data)` rejects the null id, and the recovery's
`_create_error_response(None, …)` raises in turn (its `id: Union[str,int]` is
required), so `_message_loop` swallows the exception and nothing is
emitted. -/
theorem null_id_request_no_response :
    alookup [("id", Value.vNull), ("method", Value.vStr "tools/list")] "id"
      = some Value.vNull ∧
    (handleMessage {} 0 (.parsedObj
        [("id", .vNull), ("method", .vStr "tools/list")])).1 = none :=
  ⟨rfl, rfl⟩

/-- C2 (amended): a line parsing to a JSON object whose `"id"` member is a
string or an integer is handled as a request and produces exactly one
response whose id equals it (whether the request parses, routes, or falls
into the outer exception handler, which recovers the same id); a line whose
`"id"` is JSON `null` is handled as a request but produces no response (both
the request model and the attempted error response reject the id); a line
whose object lacks `"id"` is a notification and produces no response. -/
theorem request_response_id (st : ServerState) (now : ℚ)
    (fields : List (String × Value)) :
    (∀ i rid, alookup fields "id" = some i → parseRequestId i = some rid →
      ∃ r, (handleMessage st now (.parsedObj fields)).1 = some r ∧ r.id = rid) ∧
    (alookup fields "id" = some .vNull →
      (handleMessage st now (.parsedObj fields)).1 = none) ∧
    (alookup fields "id" = none →
      (handleMessage st now (.parsedObj fields)).1 = none) := by
  refine ⟨?_, ?_, ?_⟩
  · intro i rid hi hp
    have hm : amem fields "id" = true := by simp [amem, hi]
    unfold handleMessage
    simp only [hm, Bool.not_true, Bool.false_eq_true, if_false]
    rcases hb : buildRequest fields with _ | req
    · simp only [createErrorResponse, hi, Option.getD_some, hp]
      exact ⟨_, rfl, rfl⟩
    · refine ⟨_, rfl, ?_⟩
      rw [handleRequest_id]
      have h2 := buildRequest_id fields req hb
      rw [hi] at h2
      simp only [Option.getD_some] at h2
      rw [hp] at h2
      exact (Option.some.inj h2).symm
  · intro hi
    have hm : amem fields "id" = true := by simp [amem, hi]
    have hb : buildRequest fields = none := by
      unfold buildRequest
      simp [hi, parseRequestId]
    unfold handleMessage
    simp only [hm, Bool.not_true, Bool.false_eq_true, if_false, hb]
    simp [createErrorResponse, hi, parseRequestId]
  · intro hi
    have hm : amem fields "id" = false := by simp [amem, hi]
    unfold handleMessage
    simp [hm]

/-- Witness for the amended C2: a `tools/list` request with id 1 gets exactly
one response with id 1; the same payload with a null id gets none; without an
id it is a notification and gets none. -/
theorem request_response_id_witness :
    (∃ r, (handleMessage {} 0 (.parsedObj
        [("jsonrpc", .vStr "2.0"), ("id", .vInt 1),
         ("method", .vStr "tools/list")])).1 = some r ∧ r.id = .int 1) ∧
    (handleMessage {} 0 (.parsedObj
        [("jsonrpc", .vStr "2.0"), ("id", .vNull),
         ("method", .vStr "tools/list")])).1 = none ∧
    (handleMessage {} 0 (.parsedObj
        [("jsonrpc", .vStr "2.0"), ("method", .vStr "tools/list")])).1 = none := by
  refine ⟨?_, ?_, ?_⟩
  · exact (request_response_id {} 0
      [("jsonrpc", .vStr "2.0"), ("id", .vInt 1), ("method", .vStr "tools/list")]).1
      (.vInt 1) (.int 1) rfl rfl
  · exact (request_response_id {} 0
      [("jsonrpc", .vStr "2.0"), ("id", .vNull), ("method", .vStr "tools/list")]).2.1 rfl
  · exact (request_response_id {} 0
      [("jsonrpc", .vStr "2.0"), ("method", .vStr "tools/list")]).2.2 rfl

/-- C3 (code bug): on a line that is not valid JSON the dispatcher emits no
response at all — the `except json.JSONDecodeError` handler's
`_create_error_response(None, PARSE_ERROR, …)` cannot be constructed
(`MCPResponse.id` is a required `Union[str,int]` and rejects `None`), the
pydantic exception escapes `_handle_message`, and `_message_loop` logs it,
bumps `_error_count`, and continues with the remaining lines.  The claimed
single `-32700`/null-id response (clearly the code's intent, and what the
spec states) is never written. -/
theorem parse_error_no_response (st : ServerState) (now : ℚ) (raw : String)
    (ls : List InputLine) :
    createErrorResponse .vNull MCPErrorCodes.PARSE_ERROR
        ("JSON解析错误: " ++ jsonErrDetail raw) = none ∧
    (handleMessage st now (.malformed raw)).1 = none ∧
    (messageLoop st now (.malformed raw :: ls)).1
      = (messageLoop { st with request_count := st.request_count + 1
                             , error_count := st.error_count + 1 } now ls).1 := by
  refine ⟨rfl, rfl, ?_⟩
  simp [messageLoop, handleMessage, createErrorResponse, parseRequestId]

/-- C5: `tools/list` and `tools/call` requests received while `_initialized`
is false get an error response with code `-32603` (INTERNAL_ERROR), whereas
the `resources/list`, `resources/read`, `prompts/list` and `prompts/get`
handlers never consult the flag: their response's error code and
success/error shape are identical whether the server is initialized or
not. -/
theorem initialized_gate_asymmetry :
    (∀ (st : ServerState) (now : ℚ) (req : MCPRequest), st.initialized = false →
      req.method = "tools/list" →
      (handleRequest st now req).1.errCode = some (-32603)) ∧
    (∀ (st : ServerState) (now : ℚ) (req : MCPRequest), st.initialized = false →
      req.method = "tools/call" →
      (handleRequest st now req).1.errCode = some (-32603)) ∧
    (∀ (st : ServerState) (now : ℚ) (req : MCPRequest),
      req.method = "resources/list" ∨ req.method = "resources/read" ∨
      req.method = "prompts/list" ∨ req.method = "prompts/get" →
      (handleRequest { st with initialized := true } now req).1.errCode
        = (handleRequest { st with initialized := false } now req).1.errCode ∧
      (handleRequest { st with initialized := true } now req).1.result.isSome
        = (handleRequest { st with initialized := false } now req).1.result.isSome) := by
  refine ⟨?_, ?_, ?_⟩
  · intro st now req hinit hm
    simp [handleRequest, routeMethod, hm, wrapRouted, handleToolsList, hinit,
          handleException, MCPResponse.errCode, MCPErrorCodes.INTERNAL_ERROR]
  · intro st now req hinit hm
    simp [handleRequest, routeMethod, hm, wrapRouted, handleToolsCall, hinit,
          handleException, MCPResponse.errCode, MCPErrorCodes.INTERNAL_ERROR]
  · intro st now req hme
    rcases hme with hm | hm | hm | hm
    · simp [handleRequest, routeMethod, hm, wrapRouted, handleResourcesList,
            MCPResponse.errCode]
    · by_cases h1 : getStrParam req.params "uri" = "config://settings"
      · simp [handleRequest, routeMethod, hm, wrapRouted, handleResourcesRead, h1,
              MCPResponse.errCode]
      · by_cases h2 : getStrParam req.params "uri" = "stats://server"
        · simp [handleRequest, routeMethod, hm, wrapRouted, handleResourcesRead,
                h1, h2, MCPResponse.errCode]
        · by_cases h3 : getStrParam req.params "uri" = "stats://tools"
          · simp [handleRequest, routeMethod, hm, wrapRouted, handleResourcesRead,
                  h1, h2, h3, MCPResponse.errCode]
          · simp [handleRequest, routeMethod, hm, wrapRouted, handleResourcesRead,
                  h1, h2, h3, handleException, MCPResponse.errCode]
    · simp [handleRequest, routeMethod, hm, wrapRouted, handlePromptsList,
            MCPResponse.errCode]
    · by_cases h1 : getStrParam req.params "name" = "analyze_data"
      · rcases harg : (alookup req.params "arguments").getD (.vObj []) with
          _ | b | n | q | s | xs | args <;>
          simp [handleRequest, routeMethod, hm, wrapRouted, handlePromptsGet,
                h1, harg, handleException, MCPResponse.errCode]
      · by_cases h2 : getStrParam req.params "name" = "create_summary"
        · rcases harg : (alookup req.params "arguments").getD (.vObj []) with
            _ | b | n | q | s | xs | args <;>
            simp [handleRequest, routeMethod, hm, wrapRouted, handlePromptsGet,
                  h1, h2, harg, handleException, MCPResponse.errCode]
        · simp [handleRequest, routeMethod, hm, wrapRouted, handlePromptsGet,
                h1, h2, handleException, MCPResponse.errCode]

/-- Witness for C5: on an uninitialized fresh server, `tools/list` answers
with code `-32603`, while `resources/list` behaves the same whether the
`initialized` flag is true or false. -/
theorem initialized_gate_asymmetry_witness :
    (handleRequest {} 0 { id := .int 2, method := "tools/list", params := [] }).1.errCode
      = some (-32603) ∧
    ((handleRequest { ({} : ServerState) with initialized := true } 0
        { id := .int 3, method := "resources/list", params := [] }).1.errCode
      = (handleRequest { ({} : ServerState) with initialized := false } 0
        { id := .int 3, method := "resources/list", params := [] }).1.errCode ∧
     (handleRequest { ({} : ServerState) with initialized := true } 0
        { id := .int 3, method := "resources/list", params := [] }).1.result.isSome
      = (handleRequest { ({} : ServerState) with initialized := false } 0
        { id := .int 3, method := "resources/list", params := [] }).1.result.isSome) := by
  constructor
  · exact initialized_gate_asymmetry.1 {} 0
      { id := .int 2, method := "tools/list", params := [] } rfl rfl
  · exact initialized_gate_asymmetry.2.2 {} 0
      { id := .int 3, method := "resources/list", params := [] } (Or.inl rfl)

end CogneeMCP
